import Mathlib

/-!
Shallow embedding of the client-side analytics layer of `src/app.js`:
the statistical helpers (`calculateMean`, `calculateMedian`,
`calculateStdDev`, `calculatePercentile`, `calculateSkewness`), the
land-size parser (`parseLandSize`), the per-record investment score
(`calculateInvestmentScore`), the outlier-detection report
(`generateOutlierDetection`) and the mortgage calculator
(`calculateMortgage`).

JavaScript numbers are modelled as exact rationals.  Where the source
can produce `NaN` or an infinity (division by zero, arithmetic on
`undefined`, an invalid `Date`), the type `JSNum` makes those values
explicit, so the comparison semantics of the source (`NaN < x` is
`false`, etc.) are preserved.
-/

/-- Model of a JavaScript number as it occurs in this code base: an
ordinary (exact, rational) value, one of the two infinities, or `NaN`. -/
inductive JSNum where
  | nan : JSNum
  | inf (pos : Bool) : JSNum
  | num (q : ℚ) : JSNum
deriving DecidableEq

namespace JSNum

/-- JavaScript `<` on numbers: any comparison with `NaN` is `false`. -/
def ltb : JSNum → JSNum → Bool
  | nan, _ => false
  | _, nan => false
  | num a, num b => decide (a < b)
  | num _, inf p => p
  | inf p, num _ => !p
  | inf p, inf q => !p && q

/-- JavaScript `+` on numbers. -/
def add : JSNum → JSNum → JSNum
  | nan, _ => nan
  | _, nan => nan
  | num a, num b => num (a + b)
  | num _, inf p => inf p
  | inf p, num _ => inf p
  | inf p, inf q => if p = q then inf p else nan

/-- JavaScript `*` on numbers. -/
def mul : JSNum → JSNum → JSNum
  | nan, _ => nan
  | _, nan => nan
  | num a, num b => num (a * b)
  | num a, inf p => if a = 0 then nan else inf (p = decide (0 < a))
  | inf p, num b => if b = 0 then nan else inf (p = decide (0 < b))
  | inf p, inf q => inf (p = q)

/-- JavaScript `/` on numbers.  `ℚ` has no signed zero, so division by
a zero denominator is treated as division by `+0`. -/
def div : JSNum → JSNum → JSNum
  | nan, _ => nan
  | _, nan => nan
  | num a, num b =>
    if b = 0 then (if a = 0 then nan else inf (decide (0 < a)))
    else num (a / b)
  | num _, inf _ => num 0
  | inf p, num b => if b < 0 then inf (!p) else inf p
  | inf _, inf _ => nan

/-- JavaScript `Math.pow(x, 3)`, as used by `calculateSkewness`. -/
def pow3 (x : JSNum) : JSNum := mul (mul x x) x

/-- Reading a possibly-absent numeric field for use in arithmetic:
`undefined` entering an arithmetic operation behaves as `NaN`. -/
def ofOpt : Option ℚ → JSNum
  | none => nan
  | some q => num q

end JSNum

/-- JavaScript `Math.round` on a finite value: round half up,
`⌊q + 1/2⌋`. -/
def jsRound (q : ℚ) : ℤ := ⌊q + 1 / 2⌋

/-- JavaScript `x % 1` on a finite value: `x` minus its truncation
toward zero. -/
def jsFmod1 (x : ℚ) : ℚ := x - (if 0 ≤ x then (⌊x⌋ : ℚ) else (⌈x⌉ : ℚ))

/-- Sorted copy of a numeric sample: models `[...arr].sort((a, b) => a - b)`. -/
def sortAsc (arr : List ℚ) : List ℚ := List.insertionSort (· ≤ ·) arr

/-- Source: `calculateMean` (src/app.js:1922).  Sum via
`reduce((a, b) => a + b, 0)` divided by the length; `0` for an empty
sample. -/
def calculateMean (arr : List ℚ) : ℚ :=
  if arr.length = 0 then 0
  else (arr.foldl (· + ·) 0) / arr.length

/-- Source: `calculateMedian` (src/app.js:549).  Sort ascending; middle
element for odd length, average of the two middle elements for even
length.  The source has no empty-sample guard: for `[]` it evaluates
`(sorted[-1] + sorted[0]) / 2`, i.e. arithmetic on `undefined`, giving
`NaN`; that case is returned as `JSNum.nan` here. -/
def calculateMedian (arr : List ℚ) : JSNum :=
  let sorted := sortAsc arr
  let mid := sorted.length / 2
  if sorted.length % 2 = 0 then
    if sorted.length = 0 then JSNum.nan
    else JSNum.num ((sorted.getD (mid - 1) 0 + sorted.getD mid 0) / 2)
  else JSNum.num (sorted.getD mid 0)

/-- Linear interpolation step of `calculatePercentile`
(src/app.js:1938-1944) on an already-sorted sample: `lower = ⌊index⌋`,
`upper = ⌈index⌉`, `weight = index % 1`, and the interpolated value.
Indices are in range whenever `0 ≤ index ≤ length - 1`, which holds at
every call site (`percentile ∈ [0, 100]`). -/
def interpAt (sorted : List ℚ) (index : ℚ) : ℚ :=
  let lower := ⌊index⌋
  let upper := ⌈index⌉
  let weight := jsFmod1 index
  if lower = upper then sorted.getD lower.toNat 0
  else sorted.getD lower.toNat 0 * (1 - weight) + sorted.getD upper.toNat 0 * weight

/-- Source: `calculatePercentile` (src/app.js:1935).  `0` for an empty
sample, otherwise R-7 linear interpolation at
`index = percentile/100 * (n - 1)` over the ascending-sorted sample. -/
def calculatePercentile (arr : List ℚ) (percentile : ℚ) : ℚ :=
  if arr.length = 0 then 0
  else interpAt (sortAsc arr) (percentile / 100 * ((arr.length : ℚ) - 1))

/-- Source: `calculateStdDev` (src/app.js:1927).  Population standard
deviation.  `Math.sqrt` is irrational-valued, hence not representable
in `ℚ`; it is abstracted as the parameter `sqrt`.  Every claim about
this function only exercises the empty-sample guard, which returns `0`
before `sqrt` is reached, so no property of `sqrt` is assumed. -/
def calculateStdDev (sqrt : ℚ → ℚ) (arr : List ℚ) : ℚ :=
  if arr.length = 0 then 0
  else
    let mean := calculateMean arr
    let squareDiffs := arr.map (fun value => (value - mean) ^ 2)
    let avgSquareDiff := calculateMean squareDiffs
    sqrt avgSquareDiff

/-- Source: `calculateSkewness` (src/app.js:1947).  Adjusted
Fisher-Pearson skewness.  The divisions `(value - mean) / stdDev` and
`n / ((n-1)(n-2))` are unguarded in the source and can produce `NaN` or
an infinity, so the result is a `JSNum`.  `sqrt` is the abstracted
`Math.sqrt` passed through to `calculateStdDev`. -/
def calculateSkewness (sqrt : ℚ → ℚ) (arr : List ℚ) : JSNum :=
  if arr.length = 0 then JSNum.num 0
  else
    let mean := calculateMean arr
    let stdDev := calculateStdDev sqrt arr
    let n : ℚ := arr.length
    let cubedDiffs := arr.map fun value =>
      JSNum.pow3 (JSNum.div (JSNum.num (value - mean)) (JSNum.num stdDev))
    JSNum.mul (JSNum.div (JSNum.num n) (JSNum.num ((n - 1) * (n - 2))))
      (cubedDiffs.foldl JSNum.add (JSNum.num 0))

/-- Characters matched by the regex character class `[\d.]` of
`parseLandSize`. -/
def isLandTokenChar (c : Char) : Bool := c.isDigit || c = '.'

/-- The match of `/[\d.]+/`: the first maximal run of `[\d.]`
characters, `none` when the string contains no such character. -/
def firstLandToken : List Char → Option (List Char)
  | [] => none
  | c :: cs =>
    if isLandTokenChar c then some (c :: cs.takeWhile isLandTokenChar)
    else firstLandToken cs

/-- Numeric value of a run of decimal digits. -/
def digitsVal (ds : List Char) : ℕ :=
  ds.foldl (fun n c => 10 * n + (c.toNat - 48)) 0

/-- JavaScript `parseFloat` applied to a `[\d.]+` token: leading digits
form the integer part; if the next character is a dot, the digits after
it form the fraction; everything after a second dot is ignored.  When
no digit is read at all (a token consisting only of dots) the result is
`NaN`. -/
def parseFloatTok (t : List Char) : JSNum :=
  let intPart := t.takeWhile Char.isDigit
  let rest := t.dropWhile Char.isDigit
  match rest with
  | '.' :: r =>
    let fracPart := r.takeWhile Char.isDigit
    if intPart.isEmpty && fracPart.isEmpty then JSNum.nan
    else JSNum.num ((digitsVal intPart : ℚ) + (digitsVal fracPart : ℚ) / 10 ^ fracPart.length)
  | _ => if intPart.isEmpty then JSNum.nan else JSNum.num (digitsVal intPart)

/-- Source: `parseLandSize` (src/app.js:1171).  `!landStr` is true for
an absent value and for the empty string, giving `0`; otherwise the
first `[\d.]+` token is extracted and fed to `parseFloat`, and a string
with no such token gives `0`.  A numeric `land_size` attribute is
modelled by its decimal string rendering. -/
def parseLandSize (landStr : Option String) : JSNum :=
  match landStr with
  | none => JSNum.num 0
  | some s =>
    if s = "" then JSNum.num 0
    else
      match firstLandToken s.toList with
      | none => JSNum.num 0
      | some t => parseFloatTok t

/-- Physical attributes of a property record, as read by the analytics
code (`property.attributes?.…`).  Counts are possibly-absent numbers;
`land_size` is a possibly-absent value whose string rendering is what
`parseLandSize` consumes. -/
structure Attributes where
  bedrooms : Option ℚ
  bathrooms : Option ℚ
  garage_spaces : Option ℚ
  land_size : Option String
deriving DecidableEq

/-- A property record, restricted to the fields the analytics layer
reads.  `listing_date` is the epoch-milliseconds value of
`new Date(property.listing_date)`; `none` models an absent field or a
string parsing to an invalid date (whose numeric value is `NaN`). -/
structure Property where
  price : Option ℚ
  attributes : Option Attributes
  property_type : Option String
  listing_date : Option ℚ
deriving DecidableEq

/-- `property.attributes?.bedrooms || 0`: the bedroom count, with an
absent attributes object or an absent count read as `0`. -/
def Property.bedroomsOr0 (p : Property) : ℚ :=
  (p.attributes.bind Attributes.bedrooms).getD 0

/-- `property.attributes?.bathrooms || 0`. -/
def Property.bathroomsOr0 (p : Property) : ℚ :=
  (p.attributes.bind Attributes.bathrooms).getD 0

/-- `property.attributes?.garage_spaces || 0`. -/
def Property.garagesOr0 (p : Property) : ℚ :=
  (p.attributes.bind Attributes.garage_spaces).getD 0

/-- The price sample `currentProperties.map(p => p.price).filter(p => p && p > 0)`:
present prices that are truthy (nonzero) and positive, i.e. the
positive ones. -/
def positivePrices (props : List Property) : List ℚ :=
  (props.filterMap Property.price).filter (fun q => decide (0 < q))

/-- Price-competitiveness factor of `calculateInvestmentScore`
(src/app.js:1041-1050), applied to the (possibly `NaN` or infinite)
ratio `property.price / medianPrice`. -/
def priceFactorOf (priceRatio : JSNum) : ℚ :=
  if priceRatio.ltb (JSNum.num 0.8) then 30
  else if priceRatio.ltb (JSNum.num 1.0) then 25
  else if priceRatio.ltb (JSNum.num 1.2) then 15
  else 5

/-- Land-size factor (src/app.js:1053-1062), applied to the parsed
land size. -/
def landFactorOf (landSize : JSNum) : ℚ :=
  if (JSNum.num 700).ltb landSize then 20
  else if (JSNum.num 600).ltb landSize then 15
  else if (JSNum.num 500).ltb landSize then 10
  else 5

/-- Features factor (src/app.js:1065-1068):
`Math.min(25, bedrooms*5 + bathrooms*4 + garages*3)`. -/
def featuresOf (bedrooms bathrooms garages : ℚ) : ℚ :=
  min 25 (bedrooms * 5 + bathrooms * 4 + garages * 3)

/-- Property-type factor (src/app.js:1071-1077). -/
def typeFactorOf (property_type : Option String) : ℚ :=
  if property_type = some "House" then 15
  else if property_type = some "Townhouse" then 10
  else 5

/-- Recency factor (src/app.js:1082-1088), applied to the (possibly
`NaN`) days-since-listing value. -/
def recencyFactorOf (daysSinceListing : JSNum) : ℚ :=
  if daysSinceListing.ltb (JSNum.num 7) then 10
  else if daysSinceListing.ltb (JSNum.num 30) then 7
  else 3

/-- The five named sub-scores, in the insertion order of the source's
`factors` object. -/
structure ScoreFactors where
  price : ℚ
  land : ℚ
  features : ℚ
  type : ℚ
  recency : ℚ
deriving DecidableEq

/-- Result of `calculateInvestmentScore`: the rounded total and the
factor breakdown. -/
structure InvestmentScore where
  score : ℤ
  factors : ScoreFactors
deriving DecidableEq

/-- Source: `calculateInvestmentScore` (src/app.js:1032-1093).
`currentProperties` is the global result list the source reads, `now`
the epoch-milliseconds value of `new Date()`.  The unused local
`avgBedrooms` of the source is omitted.  `Math.round` of the (always
finite) factor sum is `jsRound`. -/
def calculateInvestmentScore (currentProperties : List Property)
    (property : Property) (now : ℚ) : InvestmentScore :=
  let prices := positivePrices currentProperties
  let medianPrice := calculateMedian prices
  let priceRatio := JSNum.div (JSNum.ofOpt property.price) medianPrice
  let landSize := parseLandSize (property.attributes.bind Attributes.land_size)
  let daysSinceListing :=
    JSNum.div
      (match property.listing_date with
       | some t => JSNum.num (now - t)
       | none => JSNum.nan)
      (JSNum.num (1000 * 60 * 60 * 24))
  let factors : ScoreFactors :=
    { price := priceFactorOf priceRatio
      land := landFactorOf landSize
      features := featuresOf property.bedroomsOr0 property.bathroomsOr0 property.garagesOr0
      type := typeFactorOf property.property_type
      recency := recencyFactorOf daysSinceListing }
  { score := jsRound (factors.price + factors.land + factors.features +
      factors.type + factors.recency)
    factors := factors }

/-- The filter predicate `p => p.price && p.price < lowerFence` of the
undervalued list: the price must be present and truthy (nonzero), and
strictly below the fence. -/
def underPred (lowerFence : ℚ) (p : Property) : Bool :=
  match p.price with
  | some q => decide (q ≠ 0) && decide (q < lowerFence)
  | none => false

/-- The filter predicate `p => p.price && p.price > upperFence` of the
overpriced list. -/
def overPred (upperFence : ℚ) (p : Property) : Bool :=
  match p.price with
  | some q => decide (q ≠ 0) && decide (upperFence < q)
  | none => false

/-- The numeric outputs of `generateOutlierDetection`
(src/app.js:1308-1404): the quartiles, fences, the two outlier lists,
the representative record shown for each side (`undervalued[0]` /
`overpriced[0]`), the displayed percent figures and the displayed
market median. -/
structure OutlierReport where
  q1 : ℚ
  q3 : ℚ
  iqr : ℚ
  lowerFence : ℚ
  upperFence : ℚ
  undervalued : List Property
  overpriced : List Property
  reprUnder : Option Property
  reprOver : Option Property
  belowPct : Option ℚ
  abovePct : Option ℚ
  marketMedian : JSNum
deriving DecidableEq

/-- Source: `generateOutlierDetection` (src/app.js:1308-1404), with the
HTML rendering stripped to the values it displays.  The local `stdDev`
of the source is computed and never used, and is omitted.  The percent
figures are `(1 - price/mean)*100` resp. `(price/mean - 1)*100` for the
first record of each outlier list; the displayed market reference is
`calculateMedian(prices)`. -/
def generateOutlierDetection (currentProperties : List Property) : OutlierReport :=
  let prices := positivePrices currentProperties
  let mean := calculateMean prices
  let q1 := calculatePercentile prices 25
  let q3 := calculatePercentile prices 75
  let iqr := q3 - q1
  let lowerFence := q1 - 1.5 * iqr
  let upperFence := q3 + 1.5 * iqr
  let undervalued := currentProperties.filter (underPred lowerFence)
  let overpriced := currentProperties.filter (overPred upperFence)
  { q1 := q1
    q3 := q3
    iqr := iqr
    lowerFence := lowerFence
    upperFence := upperFence
    undervalued := undervalued
    overpriced := overpriced
    reprUnder := undervalued.head?
    reprOver := overpriced.head?
    belowPct := undervalued.head?.bind fun p => p.price.map fun q => (1 - q / mean) * 100
    abovePct := overpriced.head?.bind fun p => p.price.map fun q => (q / mean - 1) * 100
    marketMedian := calculateMedian prices }

/-- Result fields of `calculateMortgage`. -/
structure MortgageResult where
  depositAmount : ℚ
  loanAmount : ℚ
  monthlyRate : ℚ
  numPayments : ℤ
  monthlyPayment : ℚ
  totalRepayment : ℚ
  totalInterest : ℚ

/-- Source: `calculateMortgage` (src/app.js:3753-3794), restricted to
its computation (the DOM reads/writes and the chart call are the
excluded presentation layer).  `termYears` is the `parseInt` result. -/
def calculateMortgage (price depositPercent ratePercent : ℚ)
    (termYears : ℤ) : MortgageResult :=
  let depositAmount := price * depositPercent / 100
  let loanAmount := price - depositAmount
  let monthlyRate := ratePercent / 100 / 12
  let numPayments := termYears * 12
  let monthlyPayment :=
    if 0 < monthlyRate then
      loanAmount * (monthlyRate * (1 + monthlyRate) ^ numPayments) /
        ((1 + monthlyRate) ^ numPayments - 1)
    else loanAmount / (numPayments : ℚ)
  let totalRepayment := monthlyPayment * (numPayments : ℚ)
  let totalInterest := totalRepayment - loanAmount
  { depositAmount := depositAmount
    loanAmount := loanAmount
    monthlyRate := monthlyRate
    numPayments := numPayments
    monthlyPayment := monthlyPayment
    totalRepayment := totalRepayment
    totalInterest := totalInterest }

/-- Reference price factor as the specification states it, as a
function of the real-valued ratio `price / median`. -/
def specPriceFactor (ratio : ℚ) : ℚ :=
  if ratio < 0.8 then 30
  else if ratio < 1.0 then 25
  else if ratio < 1.2 then 15
  else 5

/-- Reference land factor as the specification states it, as a function
of the parsed numeric land size. -/
def specLandFactor (size : ℚ) : ℚ :=
  if 700 < size then 20
  else if 600 < size then 15
  else if 500 < size then 10
  else 5

/-- Reference type factor as the specification states it. -/
def specTypeFactor (property_type : Option String) : ℚ :=
  if property_type = some "House" then 15
  else if property_type = some "Townhouse" then 10
  else 5

/-- Reference recency factor as the specification states it, as a
function of the real-valued days since listing. -/
def specRecencyFactor (days : ℚ) : ℚ :=
  if days < 7 then 10
  else if days < 30 then 7
  else 3

/-- A minimal record carrying only a price, used as sample data. -/
def stubProp (q : ℚ) : Property :=
  { price := some q, attributes := none, property_type := none, listing_date := none }

/-- The record of the specification's worked example: zero counts, type
"Land", no land size, listed at epoch time 0. -/
def demoLandRecord : Property :=
  { price := some 10
    attributes := some { bedrooms := some 0, bathrooms := some 0,
                         garage_spaces := some 0, land_size := none }
    property_type := some "Land"
    listing_date := some 0 }

/-- A result set whose positive prices are `[2, 4, 6, 10]`, so the
median price is `5` and `demoLandRecord`'s price is exactly twice it. -/
def demoProps : List Property :=
  [stubProp 2, stubProp 4, stubProp 6, demoLandRecord]

/-- One year after epoch time 0, in milliseconds. -/
def demoNow : ℚ := 365 * (1000 * 60 * 60 * 24)

/-- A result set with one cheap and one expensive outlier among a flat
cluster: prices `[10, 10, 10, 10, 1, 100]`, fences both `10`. -/
def demoOutlierProps : List Property :=
  [stubProp 10, stubProp 10, stubProp 10, stubProp 10, stubProp 1, stubProp 100]

/-- A result set with prices `[1, 1, 1, 1, 100]`: the median is `1` but
the mean is `104/5`, separating the two reference figures. -/
def demoSkewProps : List Property :=
  [stubProp 1, stubProp 1, stubProp 1, stubProp 1, stubProp 100]

example : parseLandSize (some "650m²") = JSNum.num 650 := by decide
example : parseLandSize (some "1.2.3ha") = JSNum.num (6 / 5) := by
  have h1 : parseLandSize (some "1.2.3ha") =
      JSNum.num ((digitsVal ['1'] : ℚ) + (digitsVal ['2'] : ℚ) / 10 ^ 1) := rfl
  have h2 : digitsVal ['1'] = 1 := by decide
  have h3 : digitsVal ['2'] = 2 := by decide
  rw [h1, h2, h3]
  norm_num
example : parseLandSize (some ".") = JSNum.nan := by decide
example : calculatePercentile [10, 20, 30, 40] 25 = 35 / 2 := by
  have hf : ⌊(3 : ℚ) / 4⌋ = 0 := by norm_num
  have hc : ⌈(3 : ℚ) / 4⌉ = 1 := by rw [Int.ceil_eq_iff]; norm_num
  norm_num [calculatePercentile, interpAt, sortAsc, jsFmod1, List.insertionSort,
    List.orderedInsert, hf, hc]
example : calculateMedian [100, 300, 200] = JSNum.num 200 := by decide
example : calculateMedian [100, 200, 300, 400] = JSNum.num 250 := by
  norm_num [calculateMedian, sortAsc, List.insertionSort, List.orderedInsert]

lemma sortAsc_length (arr : List ℚ) : (sortAsc arr).length = arr.length :=
  List.length_insertionSort _ _

lemma sortAsc_sorted (arr : List ℚ) : List.Sorted (· ≤ ·) (sortAsc arr) :=
  List.sorted_insertionSort _ _

lemma sortAsc_getD_mono (arr : List ℚ) {a b : ℕ} (hab : a ≤ b)
    (hb : b < (sortAsc arr).length) :
    (sortAsc arr).getD a 0 ≤ (sortAsc arr).getD b 0 := by
  have ha : a < (sortAsc arr).length := lt_of_le_of_lt hab hb
  rw [List.getD_eq_getElem _ 0 ha, List.getD_eq_getElem _ 0 hb]
  exact List.Sorted.rel_get_of_le (sortAsc_sorted arr) (Fin.mk_le_mk.mpr hab)

lemma parseFloatTok_nan_or_nonneg (t : List Char) :
    parseFloatTok t = JSNum.nan ∨ ∃ q : ℚ, parseFloatTok t = JSNum.num q ∧ 0 ≤ q := by
  simp only [parseFloatTok]
  split
  · split
    · exact Or.inl rfl
    · exact Or.inr ⟨_, rfl, by positivity⟩
  · split
    · exact Or.inl rfl
    · exact Or.inr ⟨_, rfl, by positivity⟩

/-- C8: on the empty sample each statistical helper of the Analytics
Engine — `calculateMean`, `calculateStdDev`, `calculatePercentile` and
`calculateSkewness` — returns the numeric value `0` through its early
guard rather than raising; all four are total functions of the sample
(quantified over the abstracted `Math.sqrt` where it occurs). -/
theorem c8_empty_sample_defaults :
    calculateMean [] = 0 ∧
    (∀ sqrt : ℚ → ℚ, calculateStdDev sqrt [] = 0) ∧
    (∀ p : ℚ, calculatePercentile [] p = 0) ∧
    (∀ sqrt : ℚ → ℚ, calculateSkewness sqrt [] = JSNum.num 0) :=
  ⟨rfl, fun _ => rfl, fun _ => rfl, fun _ => rfl⟩

/-- C4: for every price, deposit percentage, rate percentage and term,
with `r` the monthly rate and `n = termYears * 12`: the loan amount is
`price` minus the deposit; a positive `r` selects the amortizing
formula `P·r·(1+r)^n / ((1+r)^n − 1)`; `r = 0` selects `P / n`, never
the exponential branch; and the repayment identities hold exactly, so
`totalRepayment − totalInterest` is the loan amount. -/
theorem c4_mortgage_formulas (price depositPercent ratePercent : ℚ) (termYears : ℤ) :
    (calculateMortgage price depositPercent ratePercent termYears).loanAmount =
      price - price * depositPercent / 100 ∧
    (0 < ratePercent / 100 / 12 →
      (calculateMortgage price depositPercent ratePercent termYears).monthlyPayment =
        (calculateMortgage price depositPercent ratePercent termYears).loanAmount *
          (ratePercent / 100 / 12) * (1 + ratePercent / 100 / 12) ^ (termYears * 12) /
          ((1 + ratePercent / 100 / 12) ^ (termYears * 12) - 1)) ∧
    (ratePercent / 100 / 12 = 0 →
      (calculateMortgage price depositPercent ratePercent termYears).monthlyPayment =
        (calculateMortgage price depositPercent ratePercent termYears).loanAmount /
          ((termYears * 12 : ℤ) : ℚ)) ∧
    (calculateMortgage price depositPercent ratePercent termYears).totalRepayment =
      (calculateMortgage price depositPercent ratePercent termYears).monthlyPayment *
        ((termYears * 12 : ℤ) : ℚ) ∧
    (calculateMortgage price depositPercent ratePercent termYears).totalInterest =
      (calculateMortgage price depositPercent ratePercent termYears).totalRepayment -
        (calculateMortgage price depositPercent ratePercent termYears).loanAmount ∧
    (calculateMortgage price depositPercent ratePercent termYears).totalRepayment -
      (calculateMortgage price depositPercent ratePercent termYears).totalInterest =
      (calculateMortgage price depositPercent ratePercent termYears).loanAmount := by
  refine ⟨rfl, fun hr => ?_, fun hr => ?_, rfl, rfl, ?_⟩
  · have h : (calculateMortgage price depositPercent ratePercent termYears).monthlyPayment =
        (price - price * depositPercent / 100) *
          ((ratePercent / 100 / 12) * (1 + ratePercent / 100 / 12) ^ (termYears * 12)) /
          ((1 + ratePercent / 100 / 12) ^ (termYears * 12) - 1) := by
      simp only [calculateMortgage]
      rw [if_pos hr]
    rw [h, show (calculateMortgage price depositPercent ratePercent termYears).loanAmount =
      price - price * depositPercent / 100 from rfl]
    ring
  · have h : (calculateMortgage price depositPercent ratePercent termYears).monthlyPayment =
        (price - price * depositPercent / 100) / ((termYears * 12 : ℤ) : ℚ) := by
      simp only [calculateMortgage]
      rw [if_neg (by rw [hr]; exact lt_irrefl 0)]
    rw [h, show (calculateMortgage price depositPercent ratePercent termYears).loanAmount =
      price - price * depositPercent / 100 from rfl]
  · simp only [calculateMortgage]
    ring

/-- Witness for C4 at the specification's worked example: price
1,000,000, 20% deposit, 6% over 30 years. -/
theorem c4_mortgage_formulas_witness :
    (0 : ℚ) < 6 / 100 / 12 ∧
    (calculateMortgage 1000000 20 6 30).monthlyPayment =
      (calculateMortgage 1000000 20 6 30).loanAmount * (6 / 100 / 12) *
        (1 + 6 / 100 / 12) ^ (30 * 12 : ℤ) / ((1 + 6 / 100 / 12) ^ (30 * 12 : ℤ) - 1) ∧
    (calculateMortgage 1000000 20 6 30).totalRepayment -
      (calculateMortgage 1000000 20 6 30).totalInterest =
      (calculateMortgage 1000000 20 6 30).loanAmount :=
  ⟨by norm_num, (c4_mortgage_formulas 1000000 20 6 30).2.1 (by norm_num),
    (c4_mortgage_formulas 1000000 20 6 30).2.2.2.2.2⟩

/-- C10: when the listing date is absent or does not parse to a valid
date (modelled by `listing_date = none`, whose numeric value is `NaN`),
the `NaN` days-since-listing value fails both `< 7` and `< 30` and the
recency factor falls through to `3`; the returned score remains the
integer rounding of the factor sum. -/
theorem c10_recency_default (props : List Property) (p : Property) (now : ℚ)
    (h : p.listing_date = none) :
    (calculateInvestmentScore props p now).factors.recency = 3 ∧
    (calculateInvestmentScore props p now).score =
      jsRound ((calculateInvestmentScore props p now).factors.price +
        (calculateInvestmentScore props p now).factors.land +
        (calculateInvestmentScore props p now).factors.features +
        (calculateInvestmentScore props p now).factors.type + 3) := by
  have hrec : (calculateInvestmentScore props p now).factors.recency = 3 := by
    simp [calculateInvestmentScore, h, recencyFactorOf, JSNum.div, JSNum.ltb]
  refine ⟨hrec, ?_⟩
  conv_lhs => rw [show (calculateInvestmentScore props p now).score =
    jsRound ((calculateInvestmentScore props p now).factors.price +
      (calculateInvestmentScore props p now).factors.land +
      (calculateInvestmentScore props p now).factors.features +
      (calculateInvestmentScore props p now).factors.type +
      (calculateInvestmentScore props p now).factors.recency) from rfl]
  rw [hrec]

/-- Witness for C10 on a record with no listing date. -/
theorem c10_recency_default_witness :
    (stubProp 2).listing_date = none ∧
    (calculateInvestmentScore demoProps (stubProp 2) demoNow).factors.recency = 3 :=
  ⟨rfl, (c10_recency_default demoProps (stubProp 2) demoNow rfl).1⟩

/-- Counterexample to C9 as stated: on the input string `"."` the first
`[\d.]+` token is `"."`, `parseFloat` of which is `NaN`, so
`parseLandSize` returns `NaN` — not a non-negative finite number and
not `0`. -/
theorem c9_counterexample :
    parseLandSize (some ".") = JSNum.nan ∧
    ∀ q : ℚ, parseLandSize (some ".") ≠ JSNum.num q := by
  refine ⟨by decide, ?_⟩
  intro q h
  rw [show parseLandSize (some ".") = JSNum.nan by decide] at h
  exact JSNum.noConfusion h

/-- C9 as amended: `parseLandSize` returns the `parseFloat` value of
the first `[\d.]+` token (e.g. 650 for "650m²" and a bare numeral for
itself), `0` for an absent input or an input with no such token, and
its result is always either a non-negative finite number or `NaN`, the
latter exactly for tokens containing no parsable digit. -/
theorem c9_amended :
    parseLandSize none = JSNum.num 0 ∧
    (∀ s : String, firstLandToken s.toList = none → parseLandSize (some s) = JSNum.num 0) ∧
    parseLandSize (some "650m²") = JSNum.num 650 ∧
    parseLandSize (some "650") = JSNum.num 650 ∧
    (∀ o : Option String, parseLandSize o = JSNum.nan ∨
      ∃ q : ℚ, parseLandSize o = JSNum.num q ∧ 0 ≤ q) := by
  refine ⟨rfl, ?_, by decide, by decide, ?_⟩
  · intro s hs
    simp only [String.toList] at hs
    by_cases h : s = ""
    · simp [parseLandSize, h]
    · simp [parseLandSize, h, hs]
  · intro o
    match o with
    | none => exact Or.inr ⟨0, rfl, le_refl 0⟩
    | some s =>
      by_cases h : s = ""
      · exact Or.inr ⟨0, by simp [parseLandSize, h], le_refl 0⟩
      · cases hft : firstLandToken s.data with
        | none => exact Or.inr ⟨0, by simp [parseLandSize, h, hft], le_refl 0⟩
        | some t =>
          have hred : parseLandSize (some s) = parseFloatTok t := by
            simp [parseLandSize, h, hft]
          rw [hred]
          exact parseFloatTok_nan_or_nonneg t

/-- Witness for C9's amended theorem on a string without any token. -/
theorem c9_amended_witness :
    firstLandToken "no land".toList = none ∧
    parseLandSize (some "no land") = JSNum.num 0 :=
  ⟨by decide, c9_amended.2.1 "no land" (by decide)⟩

lemma calculatePercentile_nonempty (arr : List ℚ) (hn : arr.length ≠ 0) (p : ℚ) :
    calculatePercentile arr p = interpAt (sortAsc arr) (p / 100 * ((arr.length : ℚ) - 1)) := by
  rw [calculatePercentile, if_neg hn]

lemma interpAt_natCast (s : List ℚ) (k : ℕ) : interpAt s (k : ℚ) = s.getD k 0 := by
  simp [interpAt, Int.floor_natCast, Int.ceil_natCast, Int.toNat_natCast]

lemma interpAt_half (s : List ℚ) (k : ℕ) :
    interpAt s ((k : ℚ) + 1 / 2) = (s.getD k 0 + s.getD (k + 1) 0) / 2 := by
  have hfl : ⌊(k : ℚ) + 1 / 2⌋ = (k : ℤ) := by
    rw [Int.floor_eq_iff]
    constructor
    · push_cast; linarith
    · push_cast; linarith
  have hcl : ⌈(k : ℚ) + 1 / 2⌉ = (k : ℤ) + 1 := by
    rw [Int.ceil_eq_iff]
    constructor
    · push_cast; linarith
    · push_cast; linarith
  have hw : jsFmod1 ((k : ℚ) + 1 / 2) = 1 / 2 := by
    rw [jsFmod1, if_pos (by positivity), hfl]
    push_cast
    ring
  have hne : ¬((k : ℤ) = (k : ℤ) + 1) := by omega
  have ht1 : ((k : ℤ)).toNat = k := Int.toNat_natCast k
  have ht2 : ((k : ℤ) + 1).toNat = k + 1 := by omega
  simp only [interpAt, hfl, hcl, hw, if_neg hne, ht1, ht2]
  ring

lemma calculateMedian_odd (arr : List ℚ) (k : ℕ) (hk : arr.length = 2 * k + 1) :
    calculateMedian arr = JSNum.num ((sortAsc arr).getD k 0) := by
  have h1 : (sortAsc arr).length = 2 * k + 1 := by rw [sortAsc_length, hk]
  have hmod : ¬((2 * k + 1) % 2 = 0) := by omega
  have hdiv : (2 * k + 1) / 2 = k := by omega
  simp only [calculateMedian, h1, hdiv, if_neg hmod]

lemma calculateMedian_even (arr : List ℚ) (k : ℕ) (hk : arr.length = 2 * k + 2) :
    calculateMedian arr =
      JSNum.num (((sortAsc arr).getD k 0 + (sortAsc arr).getD (k + 1) 0) / 2) := by
  have h1 : (sortAsc arr).length = 2 * k + 2 := by rw [sortAsc_length, hk]
  have hmod : (2 * k + 2) % 2 = 0 := by omega
  have hdiv : (2 * k + 2) / 2 = k + 1 := by omega
  have hne : ¬(2 * k + 2 = 0) := by omega
  simp only [calculateMedian, h1, hdiv, if_pos hmod, if_neg hne, Nat.add_sub_cancel]

/-- C2: for every non-empty numeric sample, the linear-interpolation
percentile at `p = 50` coincides with the median: the middle element of
the ascending-sorted sample for odd length, the average of the two
middle elements for even length. -/
theorem c2_percentile50_eq_median (arr : List ℚ) (h : arr ≠ []) :
    JSNum.num (calculatePercentile arr 50) = calculateMedian arr := by
  have hn : arr.length ≠ 0 := fun hl => h (List.length_eq_zero.mp hl)
  rw [calculatePercentile_nonempty arr hn]
  rcases Nat.even_or_odd arr.length with he | ho
  · obtain ⟨k, hk⟩ : ∃ k, arr.length = 2 * k + 2 := by
      rcases he with ⟨m, hm⟩
      exact ⟨m - 1, by omega⟩
    have hidx : (50 : ℚ) / 100 * ((arr.length : ℚ) - 1) = (k : ℚ) + 1 / 2 := by
      rw [hk]; push_cast; ring
    rw [hidx, interpAt_half, calculateMedian_even arr k hk]
  · obtain ⟨k, hk⟩ : ∃ k, arr.length = 2 * k + 1 := by
      rcases ho with ⟨m, hm⟩
      exact ⟨m, by omega⟩
    have hidx : (50 : ℚ) / 100 * ((arr.length : ℚ) - 1) = (k : ℚ) := by
      rw [hk]; push_cast; ring
    rw [hidx, interpAt_natCast, calculateMedian_odd arr k hk]

/-- Witness for C2 on the even-length sample `[100, 200, 300, 400]`. -/
theorem c2_percentile50_eq_median_witness :
    [100, 200, 300, 400] ≠ ([] : List ℚ) ∧
    JSNum.num (calculatePercentile [100, 200, 300, 400] 50) =
      calculateMedian [100, 200, 300, 400] :=
  ⟨by decide, c2_percentile50_eq_median [100, 200, 300, 400] (by decide)⟩

lemma priceFactorOf_bounds (r : JSNum) : 5 ≤ priceFactorOf r ∧ priceFactorOf r ≤ 30 := by
  unfold priceFactorOf
  split_ifs <;> norm_num

lemma landFactorOf_bounds (s : JSNum) : 5 ≤ landFactorOf s ∧ landFactorOf s ≤ 20 := by
  unfold landFactorOf
  split_ifs <;> norm_num

lemma typeFactorOf_bounds (t : Option String) : 5 ≤ typeFactorOf t ∧ typeFactorOf t ≤ 15 := by
  unfold typeFactorOf
  split_ifs <;> norm_num

lemma recencyFactorOf_bounds (d : JSNum) : 3 ≤ recencyFactorOf d ∧ recencyFactorOf d ≤ 10 := by
  unfold recencyFactorOf
  split_ifs <;> norm_num

lemma featuresOf_bounds {b ba g : ℚ} (hb : 0 ≤ b) (hba : 0 ≤ ba) (hg : 0 ≤ g) :
    0 ≤ featuresOf b ba g ∧ featuresOf b ba g ≤ 25 := by
  unfold featuresOf
  constructor
  · apply le_min (by norm_num)
    positivity
  · exact min_le_left _ _

lemma jsRound_factor_sum_bounds {a b c d e : ℚ}
    (h1 : 5 ≤ a) (h2 : a ≤ 30) (h3 : 5 ≤ b) (h4 : b ≤ 20)
    (h5 : 0 ≤ c) (h6 : c ≤ 25) (h7 : 5 ≤ d) (h8 : d ≤ 15)
    (h9 : 3 ≤ e) (h10 : e ≤ 10) :
    18 ≤ jsRound (a + b + c + d + e) ∧ jsRound (a + b + c + d + e) ≤ 100 := by
  constructor
  · rw [jsRound, Int.le_floor]
    push_cast
    linarith
  · have h : jsRound (a + b + c + d + e) < 101 := by
      rw [jsRound, Int.floor_lt]
      push_cast
      linarith
    omega

/-- C1: for every result set, record and clock value, provided the
record's bedroom, bathroom and garage counts are non-negative where
present (absent counts read as 0), every factor meets its floor
(price at least 5, land at least 5, features at least 0, type at least
5, recency at least 3) and the returned total — an integer by
construction — lies in `[18, 100]`, regardless of an absent or
malformed price, land size or listing date. -/
theorem c1_score_bounds (props : List Property) (p : Property) (now : ℚ)
    (hb : 0 ≤ p.bedroomsOr0) (hba : 0 ≤ p.bathroomsOr0) (hg : 0 ≤ p.garagesOr0) :
    (5 ≤ (calculateInvestmentScore props p now).factors.price ∧
     5 ≤ (calculateInvestmentScore props p now).factors.land ∧
     0 ≤ (calculateInvestmentScore props p now).factors.features ∧
     5 ≤ (calculateInvestmentScore props p now).factors.type ∧
     3 ≤ (calculateInvestmentScore props p now).factors.recency) ∧
    18 ≤ (calculateInvestmentScore props p now).score ∧
    (calculateInvestmentScore props p now).score ≤ 100 := by
  have hpr := priceFactorOf_bounds (JSNum.div (JSNum.ofOpt p.price)
    (calculateMedian (positivePrices props)))
  have hld := landFactorOf_bounds (parseLandSize (p.attributes.bind Attributes.land_size))
  have hty := typeFactorOf_bounds p.property_type
  have hrc := recencyFactorOf_bounds (JSNum.div
    (match p.listing_date with
     | some t => JSNum.num (now - t)
     | none => JSNum.nan)
    (JSNum.num (1000 * 60 * 60 * 24)))
  have hft := featuresOf_bounds hb hba hg
  have key := jsRound_factor_sum_bounds hpr.1 hpr.2 hld.1 hld.2 hft.1 hft.2
    hty.1 hty.2 hrc.1 hrc.2
  exact ⟨⟨hpr.1, hld.1, hft.1, hty.1, hrc.1⟩, key.1, key.2⟩

/-- Witness for C1 on a record with junk fields: no price, a
non-numeric land size, an unknown type, no listing date, counts
`3/2/1`. -/
theorem c1_score_bounds_witness :
    (0 : ℚ) ≤ Property.bedroomsOr0
      { price := none
        attributes := some { bedrooms := some 3, bathrooms := some 2,
                             garage_spaces := some 1, land_size := some "odd" }
        property_type := some "Villa"
        listing_date := none } ∧
    18 ≤ (calculateInvestmentScore []
      { price := none
        attributes := some { bedrooms := some 3, bathrooms := some 2,
                             garage_spaces := some 1, land_size := some "odd" }
        property_type := some "Villa"
        listing_date := none } 0).score ∧
    (calculateInvestmentScore []
      { price := none
        attributes := some { bedrooms := some 3, bathrooms := some 2,
                             garage_spaces := some 1, land_size := some "odd" }
        property_type := some "Villa"
        listing_date := none } 0).score ≤ 100 :=
  ⟨by decide,
    (c1_score_bounds [] _ 0 (by decide) (by decide) (by decide)).2⟩

lemma priceFactorOf_num (x : ℚ) : priceFactorOf (JSNum.num x) = specPriceFactor x := by
  simp [priceFactorOf, specPriceFactor, JSNum.ltb]

lemma landFactorOf_num (x : ℚ) : landFactorOf (JSNum.num x) = specLandFactor x := by
  simp [landFactorOf, specLandFactor, JSNum.ltb]

lemma recencyFactorOf_num (x : ℚ) : recencyFactorOf (JSNum.num x) = specRecencyFactor x := by
  simp [recencyFactorOf, specRecencyFactor, JSNum.ltb]

/-- C5: each investment-score factor equals the specification's
reference formula — the price factor applied to the real ratio
`price/median` whenever both are genuine numbers, the land factor
applied to a numerically parsed land size, the features factor as
`min(25, 5·beds + 4·baths + 3·garages)` with absent counts read as 0,
the type factor on the type label, the recency factor applied to real
days-since-listing whenever the listing date is valid — and the
specification's worked example (zero counts, type "Land", no land size,
price twice the median, listed a year ago) scores factors 5, 5, 0, 5, 3
and total 18. -/
theorem c5_factor_formulas :
    (∀ (props : List Property) (p : Property) (now : ℚ),
      (∀ pr m, p.price = some pr →
        calculateMedian (positivePrices props) = JSNum.num m → m ≠ 0 →
        (calculateInvestmentScore props p now).factors.price = specPriceFactor (pr / m)) ∧
      (∀ sz, parseLandSize (p.attributes.bind Attributes.land_size) = JSNum.num sz →
        (calculateInvestmentScore props p now).factors.land = specLandFactor sz) ∧
      (calculateInvestmentScore props p now).factors.features =
        min 25 (p.bedroomsOr0 * 5 + p.bathroomsOr0 * 4 + p.garagesOr0 * 3) ∧
      (calculateInvestmentScore props p now).factors.type = specTypeFactor p.property_type ∧
      (∀ t, p.listing_date = some t →
        (calculateInvestmentScore props p now).factors.recency =
          specRecencyFactor ((now - t) / (1000 * 60 * 60 * 24)))) ∧
    calculateInvestmentScore demoProps demoLandRecord demoNow =
      { score := 18
        factors := { price := 5, land := 5, features := 0, type := 5, recency := 3 } } := by
  constructor
  · intro props p now
    refine ⟨?_, ?_, rfl, rfl, ?_⟩
    · intro pr m hpr hm hm0
      have h : (calculateInvestmentScore props p now).factors.price =
          priceFactorOf (JSNum.div (JSNum.ofOpt p.price)
            (calculateMedian (positivePrices props))) := rfl
      rw [h, hpr, hm]
      have hdiv : JSNum.div (JSNum.ofOpt (some pr)) (JSNum.num m) = JSNum.num (pr / m) := by
        simp [JSNum.ofOpt, JSNum.div, hm0]
      rw [hdiv, priceFactorOf_num]
    · intro sz hsz
      have h : (calculateInvestmentScore props p now).factors.land =
          landFactorOf (parseLandSize (p.attributes.bind Attributes.land_size)) := rfl
      rw [h, hsz, landFactorOf_num]
    · intro t ht
      have h : (calculateInvestmentScore props p now).factors.recency =
          recencyFactorOf (JSNum.div
            (match p.listing_date with
             | some u => JSNum.num (now - u)
             | none => JSNum.nan)
            (JSNum.num (1000 * 60 * 60 * 24))) := rfl
      rw [h, ht]
      have hdiv : JSNum.div (JSNum.num (now - t)) (JSNum.num (1000 * 60 * 60 * 24)) =
          JSNum.num ((now - t) / (1000 * 60 * 60 * 24)) := by
        norm_num [JSNum.div]
      rw [hdiv, recencyFactorOf_num]
  · have hmed5 : calculateMedian (positivePrices demoProps) = JSNum.num 5 := by
      norm_num [demoProps, positivePrices, stubProp, demoLandRecord, calculateMedian,
        sortAsc, List.insertionSort, List.orderedInsert]
    have ht1 : ("Land" : String) ≠ "House" := by decide
    have ht2 : ("Land" : String) ≠ "Townhouse" := by decide
    norm_num [calculateInvestmentScore, hmed5, demoLandRecord, demoNow, JSNum.div,
      JSNum.ofOpt, priceFactorOf, landFactorOf, featuresOf, typeFactorOf,
      recencyFactorOf, JSNum.ltb, parseLandSize, jsRound, Property.bedroomsOr0,
      Property.bathroomsOr0, Property.garagesOr0, ht1, ht2]

/-- Witness for C5's conditional factor equalities, instantiated on the
worked example itself. -/
theorem c5_factor_formulas_witness :
    demoLandRecord.price = some 10 ∧
    calculateMedian (positivePrices demoProps) = JSNum.num 5 ∧ (5 : ℚ) ≠ 0 ∧
    (calculateInvestmentScore demoProps demoLandRecord demoNow).factors.price =
      specPriceFactor (10 / 5) :=
  ⟨rfl,
   by norm_num [demoProps, positivePrices, stubProp, demoLandRecord, calculateMedian,
     sortAsc, List.insertionSort, List.orderedInsert],
   by norm_num,
   ((c5_factor_formulas.1 demoProps demoLandRecord demoNow).1 10 5 rfl
     (by norm_num [demoProps, positivePrices, stubProp, demoLandRecord, calculateMedian,
       sortAsc, List.insertionSort, List.orderedInsert]) (by norm_num))⟩

lemma head_filter_eq_find {α : Type} (pred : α → Bool) (l : List α) :
    (l.filter pred).head? = l.find? pred := by
  induction l with
  | nil => rfl
  | cons a t ih =>
    by_cases h : pred a
    · simp [List.filter_cons, List.find?_cons, h]
    · simp [List.filter_cons, List.find?_cons, h, ih]

/-- C3: for every result set, with `Q1`/`Q3` the 25th/75th
linear-interpolation percentiles of the positive-price sample, the
fences are `Q1 − 1.5·IQR` and `Q3 + 1.5·IQR`; a record with a present,
truthy price is listed undervalued exactly when its price is strictly
below the lower fence and overpriced exactly when strictly above the
upper fence; and the single representative reported on each side is the
first match in original list order (`find?`), not a most-extreme
selection. -/
theorem c3_outlier_detection (props : List Property) :
    ((generateOutlierDetection props).lowerFence =
      calculatePercentile (positivePrices props) 25 -
        1.5 * (calculatePercentile (positivePrices props) 75 -
          calculatePercentile (positivePrices props) 25) ∧
     (generateOutlierDetection props).upperFence =
      calculatePercentile (positivePrices props) 75 +
        1.5 * (calculatePercentile (positivePrices props) 75 -
          calculatePercentile (positivePrices props) 25)) ∧
    (∀ p ∈ props, ∀ pr : ℚ, p.price = some pr → pr ≠ 0 →
      ((p ∈ (generateOutlierDetection props).undervalued ↔
          pr < (generateOutlierDetection props).lowerFence) ∧
       (p ∈ (generateOutlierDetection props).overpriced ↔
          (generateOutlierDetection props).upperFence < pr))) ∧
    (generateOutlierDetection props).reprUnder =
      props.find? (underPred (generateOutlierDetection props).lowerFence) ∧
    (generateOutlierDetection props).reprOver =
      props.find? (overPred (generateOutlierDetection props).upperFence) := by
  refine ⟨⟨rfl, rfl⟩, ?_, ?_, ?_⟩
  · intro p hp pr hpr h0
    constructor
    · rw [show (generateOutlierDetection props).undervalued =
        props.filter (underPred (generateOutlierDetection props).lowerFence) from rfl]
      rw [List.mem_filter]
      simp [hp, underPred, hpr, h0]
    · rw [show (generateOutlierDetection props).overpriced =
        props.filter (overPred (generateOutlierDetection props).upperFence) from rfl]
      rw [List.mem_filter]
      simp [hp, overPred, hpr, h0]
  · rw [show (generateOutlierDetection props).reprUnder =
      (props.filter (underPred (generateOutlierDetection props).lowerFence)).head? from rfl]
    exact head_filter_eq_find _ _
  · rw [show (generateOutlierDetection props).reprOver =
      (props.filter (overPred (generateOutlierDetection props).upperFence)).head? from rfl]
    exact head_filter_eq_find _ _

/-- Witness for C3 on the sample with prices
`[10, 10, 10, 10, 1, 100]`, instantiated at the price-1 record. -/
theorem c3_outlier_detection_witness :
    stubProp 1 ∈ demoOutlierProps ∧ (stubProp 1).price = some 1 ∧ (1 : ℚ) ≠ 0 ∧
    ((stubProp 1 ∈ (generateOutlierDetection demoOutlierProps).undervalued ↔
        (1 : ℚ) < (generateOutlierDetection demoOutlierProps).lowerFence) ∧
     (stubProp 1 ∈ (generateOutlierDetection demoOutlierProps).overpriced ↔
        (generateOutlierDetection demoOutlierProps).upperFence < (1 : ℚ))) :=
  ⟨by decide, rfl, by norm_num,
    (c3_outlier_detection demoOutlierProps).2.1 (stubProp 1) (by decide) 1 rfl (by norm_num)⟩

/-- C7: whenever an undervalued (resp. overpriced) representative is
reported, its displayed percent-below (resp. percent-above) market
figure is `(1 − price/mean)·100` (resp. `(price/mean − 1)·100`)
computed against the arithmetic mean of the positive-price sample; on a
sample where mean and median differ (prices `[1, 1, 1, 1, 100]`) the
figure matches the mean-based formula and differs from the median-based
one, even though the displayed market reference is the median. -/
theorem c7_percent_vs_mean :
    (∀ props : List Property,
      (∀ p pr, (generateOutlierDetection props).reprUnder = some p → p.price = some pr →
        (generateOutlierDetection props).belowPct =
          some ((1 - pr / calculateMean (positivePrices props)) * 100)) ∧
      (∀ p pr, (generateOutlierDetection props).reprOver = some p → p.price = some pr →
        (generateOutlierDetection props).abovePct =
          some ((pr / calculateMean (positivePrices props) - 1) * 100))) ∧
    ((generateOutlierDetection demoSkewProps).abovePct =
        some ((100 / calculateMean (positivePrices demoSkewProps) - 1) * 100) ∧
     (generateOutlierDetection demoSkewProps).marketMedian = JSNum.num 1 ∧
     calculateMean (positivePrices demoSkewProps) = 104 / 5 ∧
     (generateOutlierDetection demoSkewProps).abovePct ≠
       some ((100 / 1 - 1) * 100)) := by
  have hgen : ∀ props : List Property,
      (∀ p pr, (generateOutlierDetection props).reprUnder = some p → p.price = some pr →
        (generateOutlierDetection props).belowPct =
          some ((1 - pr / calculateMean (positivePrices props)) * 100)) ∧
      (∀ p pr, (generateOutlierDetection props).reprOver = some p → p.price = some pr →
        (generateOutlierDetection props).abovePct =
          some ((pr / calculateMean (positivePrices props) - 1) * 100)) := by
    intro props
    constructor
    · intro p pr hrep hp
      have h : (generateOutlierDetection props).belowPct =
          ((generateOutlierDetection props).reprUnder.bind fun q =>
            q.price.map fun x => (1 - x / calculateMean (positivePrices props)) * 100) := rfl
      rw [h, hrep]
      simp [hp]
    · intro p pr hrep hp
      have h : (generateOutlierDetection props).abovePct =
          ((generateOutlierDetection props).reprOver.bind fun q =>
            q.price.map fun x => (x / calculateMean (positivePrices props) - 1) * 100) := rfl
      rw [h, hrep]
      simp [hp]
  have hpp : positivePrices demoSkewProps = [1, 1, 1, 1, 100] := by decide
  have hs : sortAsc [1, 1, 1, 1, (100 : ℚ)] = [1, 1, 1, 1, 100] := by decide
  have i25 : calculatePercentile ([1, 1, 1, 1, 100] : List ℚ) 25 = 1 := by
    rw [calculatePercentile_nonempty _ (by decide)]
    rw [show (25 : ℚ) / 100 * ((([1, 1, 1, 1, (100 : ℚ)].length : ℕ) : ℚ) - 1) =
      ((1 : ℕ) : ℚ) by norm_num]
    rw [interpAt_natCast, hs]
    decide
  have i75 : calculatePercentile ([1, 1, 1, 1, 100] : List ℚ) 75 = 1 := by
    rw [calculatePercentile_nonempty _ (by decide)]
    rw [show (75 : ℚ) / 100 * ((([1, 1, 1, 1, (100 : ℚ)].length : ℕ) : ℚ) - 1) =
      ((3 : ℕ) : ℚ) by norm_num]
    rw [interpAt_natCast, hs]
    decide
  have huf : (generateOutlierDetection demoSkewProps).upperFence = 1 := by
    rw [show (generateOutlierDetection demoSkewProps).upperFence =
      calculatePercentile (positivePrices demoSkewProps) 75 +
        1.5 * (calculatePercentile (positivePrices demoSkewProps) 75 -
          calculatePercentile (positivePrices demoSkewProps) 25) from rfl]
    rw [hpp, i25, i75]
    norm_num
  have hover : (generateOutlierDetection demoSkewProps).overpriced = [stubProp 100] := by
    rw [show (generateOutlierDetection demoSkewProps).overpriced =
      demoSkewProps.filter (overPred (generateOutlierDetection demoSkewProps).upperFence)
      from rfl]
    rw [huf]
    decide
  have hrepO : (generateOutlierDetection demoSkewProps).reprOver = some (stubProp 100) := by
    rw [show (generateOutlierDetection demoSkewProps).reprOver =
      (generateOutlierDetection demoSkewProps).overpriced.head? from rfl, hover]
    rfl
  have hmean : calculateMean (positivePrices demoSkewProps) = 104 / 5 := by
    rw [hpp]
    norm_num [calculateMean, List.foldl]
  have habove := (hgen demoSkewProps).2 (stubProp 100) 100 hrepO rfl
  have hmedian : (generateOutlierDetection demoSkewProps).marketMedian = JSNum.num 1 := by
    rw [show (generateOutlierDetection demoSkewProps).marketMedian =
      calculateMedian (positivePrices demoSkewProps) from rfl, hpp]
    decide
  refine ⟨hgen, habove, hmedian, hmean, ?_⟩
  rw [habove, hmean]
  simp only [ne_eq, Option.some.injEq]
  norm_num

/-- Witness for C7's conditional figures, instantiated at the
overpriced representative of the `[1, 1, 1, 1, 100]` sample. -/
theorem c7_percent_vs_mean_witness :
    (generateOutlierDetection demoSkewProps).reprOver = some (stubProp 100) ∧
    (stubProp 100).price = some 100 ∧
    (generateOutlierDetection demoSkewProps).abovePct =
      some ((100 / calculateMean (positivePrices demoSkewProps) - 1) * 100) := by
  have hpp : positivePrices demoSkewProps = [1, 1, 1, 1, 100] := by decide
  have hs : sortAsc [1, 1, 1, 1, (100 : ℚ)] = [1, 1, 1, 1, 100] := by decide
  have i25 : calculatePercentile ([1, 1, 1, 1, 100] : List ℚ) 25 = 1 := by
    rw [calculatePercentile_nonempty _ (by decide)]
    rw [show (25 : ℚ) / 100 * ((([1, 1, 1, 1, (100 : ℚ)].length : ℕ) : ℚ) - 1) =
      ((1 : ℕ) : ℚ) by norm_num]
    rw [interpAt_natCast, hs]
    decide
  have i75 : calculatePercentile ([1, 1, 1, 1, 100] : List ℚ) 75 = 1 := by
    rw [calculatePercentile_nonempty _ (by decide)]
    rw [show (75 : ℚ) / 100 * ((([1, 1, 1, 1, (100 : ℚ)].length : ℕ) : ℚ) - 1) =
      ((3 : ℕ) : ℚ) by norm_num]
    rw [interpAt_natCast, hs]
    decide
  have huf : (generateOutlierDetection demoSkewProps).upperFence = 1 := by
    rw [show (generateOutlierDetection demoSkewProps).upperFence =
      calculatePercentile (positivePrices demoSkewProps) 75 +
        1.5 * (calculatePercentile (positivePrices demoSkewProps) 75 -
          calculatePercentile (positivePrices demoSkewProps) 25) from rfl]
    rw [hpp, i25, i75]
    norm_num
  have hover : (generateOutlierDetection demoSkewProps).overpriced = [stubProp 100] := by
    rw [show (generateOutlierDetection demoSkewProps).overpriced =
      demoSkewProps.filter (overPred (generateOutlierDetection demoSkewProps).upperFence)
      from rfl]
    rw [huf]
    decide
  have hrepO : (generateOutlierDetection demoSkewProps).reprOver = some (stubProp 100) := by
    rw [show (generateOutlierDetection demoSkewProps).reprOver =
      (generateOutlierDetection demoSkewProps).overpriced.head? from rfl, hover]
    rfl
  exact ⟨hrepO, rfl, (c7_percent_vs_mean.1 demoSkewProps).2 (stubProp 100) 100 hrepO rfl⟩

lemma interpAt_between (arr : List ℚ) {x : ℚ} (hx0 : 0 ≤ x)
    (hx1 : x ≤ ((sortAsc arr).length : ℚ) - 1) :
    (sortAsc arr).getD ⌊x⌋.toNat 0 ≤ interpAt (sortAsc arr) x ∧
    interpAt (sortAsc arr) x ≤ (sortAsc arr).getD ⌈x⌉.toNat 0 := by
  have hfl0 : (0 : ℤ) ≤ ⌊x⌋ := Int.le_floor.mpr (by exact_mod_cast hx0)
  have hcl : ⌈x⌉ ≤ ((sortAsc arr).length : ℤ) - 1 := by
    rw [Int.ceil_le]
    push_cast
    exact hx1
  have hfc : ⌊x⌋ ≤ ⌈x⌉ := Int.floor_le_ceil x
  have hlen : ⌈x⌉.toNat < (sortAsc arr).length := by omega
  have hltn : ⌊x⌋.toNat ≤ ⌈x⌉.toNat := by omega
  have hwf : jsFmod1 x = x - ⌊x⌋ := by rw [jsFmod1, if_pos hx0]
  have hw0 : 0 ≤ x - ⌊x⌋ := by linarith [Int.floor_le x]
  have hw1 : x - ⌊x⌋ ≤ 1 := by linarith [Int.lt_floor_add_one x]
  have hAB : (sortAsc arr).getD ⌊x⌋.toNat 0 ≤ (sortAsc arr).getD ⌈x⌉.toNat 0 :=
    sortAsc_getD_mono arr hltn hlen
  simp only [interpAt, hwf]
  split
  · exact ⟨le_refl _, hAB⟩
  · constructor
    · nlinarith [mul_nonneg hw0 (sub_nonneg.mpr hAB)]
    · nlinarith [mul_nonneg (sub_nonneg.mpr hw1) (sub_nonneg.mpr hAB)]

lemma interpAt_mono (arr : List ℚ) {x y : ℚ} (hx0 : 0 ≤ x) (hxy : x ≤ y)
    (hy1 : y ≤ ((sortAsc arr).length : ℚ) - 1) :
    interpAt (sortAsc arr) x ≤ interpAt (sortAsc arr) y := by
  have hy0 : 0 ≤ y := le_trans hx0 hxy
  have hx1 : x ≤ ((sortAsc arr).length : ℚ) - 1 := le_trans hxy hy1
  have hfl0 : (0 : ℤ) ≤ ⌊x⌋ := Int.le_floor.mpr (by exact_mod_cast hx0)
  have hcyb : ⌈y⌉ ≤ ((sortAsc arr).length : ℤ) - 1 := by
    rw [Int.ceil_le]
    push_cast
    exact hy1
  have hfcy : ⌊y⌋ ≤ ⌈y⌉ := Int.floor_le_ceil y
  have hfxy : ⌊x⌋ ≤ ⌊y⌋ := Int.floor_le_floor hxy
  have hcxx : ⌊x⌋ ≤ ⌈x⌉ := Int.floor_le_ceil x
  rcases le_or_lt ⌈x⌉ ⌊y⌋ with hcf | hfc
  · have h1 := (interpAt_between arr hx0 hx1).2
    have h2 := (interpAt_between arr hy0 hy1).1
    have hmid : (sortAsc arr).getD ⌈x⌉.toNat 0 ≤ (sortAsc arr).getD ⌊y⌋.toNat 0 :=
      sortAsc_getD_mono arr (by omega) (by omega)
    linarith
  · have hcx1 : ⌈x⌉ ≤ ⌊x⌋ + 1 := Int.ceil_le_floor_add_one x
    have hfeq : ⌊y⌋ = ⌊x⌋ := by omega
    have hceq : ⌈x⌉ = ⌊x⌋ + 1 := by omega
    have hxne : (⌊x⌋ : ℚ) < x := by
      rcases eq_or_lt_of_le (Int.floor_le x) with h | h
      · exfalso
        have hint : ⌈x⌉ = ⌊x⌋ := by
          rw [← h, Int.ceil_intCast, Int.floor_intCast]
        omega
      · exact h
    have hcy : ⌈y⌉ = ⌊x⌋ + 1 := by
      rw [Int.ceil_eq_iff]
      constructor
      · push_cast
        linarith [lt_of_lt_of_le hxne hxy]
      · push_cast
        have hy2 : y < ⌊y⌋ + 1 := Int.lt_floor_add_one y
        rw [hfeq] at hy2
        linarith
    have hne : ¬(⌊x⌋ = ⌈x⌉) := by omega
    have hney : ¬(⌊y⌋ = ⌈y⌉) := by omega
    have hwx : jsFmod1 x = x - ⌊x⌋ := by rw [jsFmod1, if_pos hx0]
    have hwy : jsFmod1 y = y - (⌊x⌋ : ℚ) := by rw [jsFmod1, if_pos hy0, hfeq]
    have hAB : (sortAsc arr).getD ⌊x⌋.toNat 0 ≤ (sortAsc arr).getD (⌊x⌋ + 1).toNat 0 :=
      sortAsc_getD_mono arr (by omega) (by omega)
    have hne1 : ¬(⌊x⌋ = ⌊x⌋ + 1) := by omega
    simp only [interpAt, hwx, hwy, hceq, hfeq, hcy, if_neg hne1]
    nlinarith [mul_nonneg (sub_nonneg.mpr hxy) (sub_nonneg.mpr hAB)]

lemma calculatePercentile_mono (arr : List ℚ) {p q : ℚ} (hp : 0 ≤ p) (hpq : p ≤ q)
    (hq : q ≤ 100) : calculatePercentile arr p ≤ calculatePercentile arr q := by
  by_cases hn : arr.length = 0
  · rw [calculatePercentile, calculatePercentile, if_pos hn, if_pos hn]
  · rw [calculatePercentile_nonempty arr hn, calculatePercentile_nonempty arr hn]
    have hlen1 : 1 ≤ arr.length := Nat.one_le_iff_ne_zero.mpr hn
    have hl : (1 : ℚ) ≤ (arr.length : ℚ) := by exact_mod_cast hlen1
    apply interpAt_mono arr
    · apply mul_nonneg (by linarith) (by linarith)
    · exact mul_le_mul_of_nonneg_right (by linarith) (by linarith)
    · rw [sortAsc_length]
      have h1 : q / 100 ≤ 1 := by linarith
      have h2 : q / 100 * ((arr.length : ℚ) - 1) ≤ 1 * ((arr.length : ℚ) - 1) :=
        mul_le_mul_of_nonneg_right h1 (by linarith)
      linarith

/-- C6: for every result set the interquartile range of the outlier
report is exactly `percentile(sample, 75) − percentile(sample, 25)`
over the positive-price sample and is non-negative, and for every
numeric sample the linear-interpolation percentile is monotone between
p = 25 and p = 75. -/
theorem c6_iqr_nonneg :
    (∀ arr : List ℚ, calculatePercentile arr 25 ≤ calculatePercentile arr 75) ∧
    ∀ props : List Property,
      (generateOutlierDetection props).iqr =
        calculatePercentile (positivePrices props) 75 -
          calculatePercentile (positivePrices props) 25 ∧
      0 ≤ (generateOutlierDetection props).iqr := by
  have hmono : ∀ arr : List ℚ, calculatePercentile arr 25 ≤ calculatePercentile arr 75 :=
    fun arr => calculatePercentile_mono arr (by norm_num) (by norm_num) (by norm_num)
  refine ⟨hmono, fun props => ⟨rfl, ?_⟩⟩
  have h := hmono (positivePrices props)
  have heq : (generateOutlierDetection props).iqr =
      calculatePercentile (positivePrices props) 75 -
        calculatePercentile (positivePrices props) 25 := rfl
  rw [heq]
  linarith
